import Mathlib

/-!
# Verification of the WISDOM survey scoring / reliability engine

Shallow embedding of the scoring and reliability code of the survey
repository:

* `wisdom_analysis.py` — `WisdomAnalyzer.cronbach_alpha` (lines 189–206) and
  the reliability paths of `WisdomAnalyzer.reliability_analysis`
  (lines 139–187);
* `wisdom_questionnaire.py` — `WisdomQuestionnaire.calculate_scores`
  (lines 112–153);
* `api/index.py` — the `/stats` aggregation endpoint `get_stats`
  (lines 217–249).

Numeric values are modelled as exact rationals.  The reliability code runs
on IEEE-754 doubles, where the degenerate branches produce non-finite
values (NaN, ±∞) instead of raising; those non-finite outcomes are
captured by the type `EF` below, whose arithmetic mirrors the IEEE
semantics of the operations actually reached by the Python code
(NaN propagation, `x / 0 = ±∞` for `x ≠ 0`, `0 / 0 = NaN`,
`finite − ∞ = −∞`, `0 · NaN = NaN`, …).  Rationals have no signed zero;
the code never produces a negative zero on the paths modelled here.
-/

namespace Survey

/-- An IEEE-754-style extended value: a rational, `+∞`, `−∞`, or NaN.
`cronbach_alpha` evaluates to such a value. -/
inductive EF : Type where
  | nan : EF
  | inf : EF
  | ninf : EF
  | fin : ℚ → EF
deriving DecidableEq

namespace EF

/-- IEEE subtraction on extended values (NaN propagates; `∞ − ∞ = NaN`). -/
def sub : EF → EF → EF
  | nan, _ => nan
  | _, nan => nan
  | inf, inf => nan
  | inf, _ => inf
  | ninf, ninf => nan
  | ninf, _ => ninf
  | fin _, inf => ninf
  | fin _, ninf => inf
  | fin a, fin b => fin (a - b)

/-- IEEE multiplication on extended values (NaN propagates; `0 · ∞ = NaN`). -/
def mul : EF → EF → EF
  | nan, _ => nan
  | _, nan => nan
  | inf, inf => inf
  | inf, ninf => ninf
  | ninf, inf => ninf
  | ninf, ninf => inf
  | inf, fin b => if b = 0 then nan else if 0 < b then inf else ninf
  | fin a, inf => if a = 0 then nan else if 0 < a then inf else ninf
  | ninf, fin b => if b = 0 then nan else if 0 < b then ninf else inf
  | fin a, ninf => if a = 0 then nan else if 0 < a then ninf else inf
  | fin a, fin b => fin (a * b)

/-- IEEE division on extended values (NaN propagates; `∞ / ∞ = NaN`;
`x / 0 = ±∞` for finite `x ≠ 0`; `0 / 0 = NaN`; zero is unsigned here). -/
def div : EF → EF → EF
  | nan, _ => nan
  | _, nan => nan
  | inf, inf => nan
  | inf, ninf => nan
  | ninf, inf => nan
  | ninf, ninf => nan
  | inf, fin b => if 0 ≤ b then inf else ninf
  | ninf, fin b => if 0 ≤ b then ninf else inf
  | fin _, inf => fin 0
  | fin _, ninf => fin 0
  | fin a, fin b =>
      if b = 0 then (if a = 0 then nan else if 0 < a then inf else ninf)
      else fin (a / b)

/-- IEEE strict comparison `<` on extended values: any comparison with NaN
is false; `−∞` is below every non-NaN value other than itself. -/
def lt : EF → EF → Bool
  | nan, _ => false
  | _, nan => false
  | ninf, ninf => false
  | ninf, _ => true
  | _, ninf => false
  | inf, _ => false
  | fin _, inf => true
  | fin a, fin b => decide (a < b)

end EF

/-- Mean of a vector of rationals (`pandas` column/row mean). -/
def mean {n : ℕ} (v : Fin n → ℚ) : ℚ := (∑ i, v i) / (n : ℚ)

/-- Sample variance with divisor `n − 1` (`pandas` `.var(ddof=1)`) of a
vector of rationals.  Only used under guards that ensure `n ≥ 2`; pandas
returns NaN for `n < 2`, which the caller models separately. -/
def svar {n : ℕ} (v : Fin n → ℚ) : ℚ :=
  (∑ i, (v i - mean v) ^ 2) / ((n : ℚ) - 1)

/-- Per-respondent summed score (`df.sum(axis=1)`). -/
def rowSums {n k : ℕ} (M : Fin n → Fin k → ℚ) : Fin n → ℚ :=
  fun i => ∑ j, M i j

/-- Shallow embedding of `WisdomAnalyzer.cronbach_alpha`
(`wisdom_analysis.py`, lines 189–206) on a complete `n × k` response
matrix (pandas `DataFrame` after `dropna()`):

```python
k = df.shape[1]
item_variances = df.var(axis=0, ddof=1)
total_variance = df.sum(axis=1).var(ddof=1)
alpha = (k / (k - 1)) * (1 - item_variances.sum() / total_variance)
return alpha            # except: return np.nan
```

Branches of the embedding, matching the Python/NumPy semantics:
* `k = 1`: `k / (k - 1)` is integer-operand division `1 / 0`, which raises
  `ZeroDivisionError`; the bare `except` returns `np.nan`.
* `n < 2`: every `.var(ddof=1)` is NaN; `item_variances.sum()` skips NaN
  entries (pandas `skipna` default) giving `0.0`, and `total_variance` is
  NaN, so the result is NaN by propagation.
* otherwise all variances are finite and the arithmetic is IEEE
  arithmetic on finite operands, including `x / 0 = ∞` (NumPy emits a
  `RuntimeWarning`, not an exception) and `0 / 0 = NaN`. -/
def cronbach_alpha (n k : ℕ) (M : Fin n → Fin k → ℚ) : EF :=
  if k = 1 then EF.nan
  else
    let item_var_sum : ℚ := if n < 2 then 0 else ∑ j, svar (fun i => M i j)
    let total_variance : EF :=
      if n < 2 then EF.nan else EF.fin (svar (rowSums M))
    EF.mul (EF.fin ((k : ℚ) / ((k : ℚ) - 1)))
      (EF.sub (EF.fin 1) (EF.div (EF.fin item_var_sum) total_variance))

/-- The overall-scale reliability path of
`WisdomAnalyzer.reliability_analysis` (`wisdom_analysis.py`,
lines 150–156): `q_data = self.df[q_columns].dropna()` followed by
`alpha_total = self.cronbach_alpha(q_data)`.  The raw 20 `Q*_numeric`
columns are passed directly — no reverse scoring of Q2 (or of anything
else) happens on this path. -/
def alpha_total (n : ℕ) (M : Fin n → Fin 20 → ℚ) : EF := cronbach_alpha n 20 M

/-- The Curiosity-subscale reliability path of `reliability_analysis`
(`wisdom_analysis.py`, lines 174–178): the Q2 column of the subscale
data is replaced by `6 - Q2` before `cronbach_alpha` is called.  Q2 is
the first of the Curiosity columns `[Q2, Q4, Q7, Q9, Q12, Q14, Q17, Q19]`,
hence column index 0 here. -/
def curiosity_alpha (n : ℕ) (C : Fin n → Fin 8 → ℚ) : EF :=
  cronbach_alpha n 8 (fun i j => if (j : ℕ) = 0 then 6 - C i j else C i j)

/-- Applying the Wisdom reversal to the Q2 column of a full 20-column
instrument matrix (columns ordered Q1 … Q20, so Q2 has index 1).  This is
what the specification requires to happen before the full-instrument
variance computation; the code's `alpha_total` path does not do it. -/
def reverseQ2 {n : ℕ} (M : Fin n → Fin 20 → ℚ) : Fin n → Fin 20 → ℚ :=
  fun i j => if (j : ℕ) = 1 then 6 - M i j else M i j

/-- The question numbers of the Wisdom instrument, in the order the
responses dictionary is populated (`administer_questionnaire` stores
`Q1 … Q20` in order). -/
def wisdom_questions : List ℕ :=
  [1, 2, 3, 4, 5, 6, 7, 8, 9, 10, 11, 12, 13, 14, 15, 16, 17, 18, 19, 20]

/-- Creativity/Innovation subscale members (`wisdom_questionnaire.py`,
line 130). -/
def creativity_questions : List ℕ := [1, 6, 11, 16]

/-- Curiosity/Learning subscale members (line 135). -/
def curiosity_questions : List ℕ := [2, 4, 7, 9, 12, 14, 17, 19]

/-- Judgment/Decision-Making subscale members (line 144). -/
def judgment_questions : List ℕ := [3, 8, 13, 18]

/-- Social Wisdom subscale members (line 149). -/
def social_questions : List ℕ := [5, 10, 15, 20]

/-- The score record returned by `calculate_scores`. -/
structure WisdomScores where
  total_wisdom_score : ℤ
  average_wisdom_score : ℚ
  creativity_score : ℤ
  curiosity_score : ℤ
  judgment_score : ℤ
  social_wisdom_score : ℤ

/-- Shallow embedding of `WisdomQuestionnaire.calculate_scores`
(`wisdom_questionnaire.py`, lines 112–153).  A respondent is a total map
`r` from question number to numeric response (the questionnaire loop
guarantees every one of Q1–Q20 is answered).  The total iterates over all
responses adding `6 - v` for Q2 and `v` otherwise; the Curiosity subscale
applies the same Q2 reversal; the other three subscales sum raw values. -/
def calculate_scores (r : ℕ → ℤ) : WisdomScores :=
  let total_score : ℤ :=
    (wisdom_questions.map (fun q => if q = 2 then 6 - r q else r q)).sum
  { total_wisdom_score := total_score
    average_wisdom_score := (total_score : ℚ) / (wisdom_questions.length : ℚ)
    creativity_score := (creativity_questions.map r).sum
    curiosity_score :=
      (curiosity_questions.map (fun q => if q = 2 then 6 - r q else r q)).sum
    judgment_score := (judgment_questions.map r).sum
    social_wisdom_score := (social_questions.map r).sum }

/-- Spec-side definition for the refinement claim C4, following the
spec's words (§4.1): "if the item is in reverse_item_ids, transform value
via `reversed = (scale_max + scale_min) - raw_value`; otherwise use raw
value unchanged", instantiated with the Wisdom instrument's
`scale_min = 1`, `scale_max = 5` and `reverse_item_ids = {2}` (Q2 is the
only reverse-scored Wisdom item). -/
def spec_reverse_adjusted_total (r : ℕ → ℤ) : ℤ :=
  (wisdom_questions.map
    (fun q => if q ∈ ([2] : List ℕ) then (5 + 1) - r q else r q)).sum

/-- The reversal transformation with `s = scale_min + scale_max` fixed
(spec §4.1 / §8; the Wisdom code instantiates it as `6 - raw_value`). -/
def reverse_score (s x : ℤ) : ℤ := s - x

/-- The per-question adjustment used in `calculate_scores` and in the
Curiosity path of `reliability_analysis`: Q2 (and only Q2) is mapped
through the 5-point reversal `6 - v`. -/
def wisdom_adjust (q : ℕ) (v : ℤ) : ℤ := if q = 2 then 6 - v else v

/-- One row produced by `read_csv_data` (`api/index.py`, lines 140–166),
restricted to the fields `get_stats` reads.  `total_score` is parsed with
`float(...)`; timestamps are compared as strings by `max(...)`. -/
structure ScoreRow where
  total_score : ℚ
  submission_timestamp : String

/-- The JSON payload assembled by `get_stats` (`api/index.py`,
lines 217–249).  `total_responses` is always present; the remaining
fields are `none` on the two early-return branches.  `dist_min` and
`dist_max` go through Python `int(...)` (truncation toward zero, `pyInt`).
`dist_std_sq` holds the sample variance whose square root
`statistics.stdev` reports; the radicand is kept because square roots
leave ℚ, and no claim inspects the std value itself. -/
structure StatsOut where
  total_responses : ℕ
  latest_submission : Option String
  average_total_score : Option ℚ
  dist_mean : Option ℚ
  dist_min : Option ℤ
  dist_max : Option ℤ
  dist_std_sq : Option ℚ
deriving DecidableEq

/-- Python `int(...)` on an exact rational: truncation toward zero
(`Int` division truncates toward zero and `q.den > 0`). -/
def pyInt (q : ℚ) : ℤ := q.num / q.den

/-- `statistics.mean`, which raises `StatisticsError` on an empty list. -/
def stat_mean (xs : List ℚ) : Except String ℚ :=
  if xs.isEmpty then Except.error "mean requires at least one data point"
  else Except.ok (xs.sum / (xs.length : ℚ))

/-- Python `min(...)`, which raises `ValueError` on an empty sequence. -/
def list_min (xs : List ℚ) : Except String ℚ :=
  match xs.min? with
  | some m => Except.ok m
  | none => Except.error "min() arg is an empty sequence"

/-- Python `max(...)`, which raises `ValueError` on an empty sequence. -/
def list_max (xs : List ℚ) : Except String ℚ :=
  match xs.max? with
  | some m => Except.ok m
  | none => Except.error "max() arg is an empty sequence"

/-- Python `max(...)` over timestamp strings. -/
def list_max_str (xs : List String) : Except String String :=
  match xs.max? with
  | some m => Except.ok m
  | none => Except.error "max() arg is an empty sequence"

/-- The square of `statistics.stdev` (sample standard deviation,
divisor `n − 1`), which raises `StatisticsError` for fewer than two data
points. -/
def stat_stdev_sq (xs : List ℚ) : Except String ℚ :=
  if xs.length < 2 then
    Except.error "stdev requires at least two data points"
  else
    Except.ok ((xs.map (fun x => (x - xs.sum / (xs.length : ℚ)) ^ 2)).sum /
      ((xs.length : ℚ) - 1))

/-- Shallow embedding of the `/stats` handler `get_stats`
(`api/index.py`, lines 217–249).  An `Except.error` outcome corresponds
to a raised exception (which the handler's `except` clause would turn
into a 500 response).  Structure of the source:

```python
responses = read_csv_data()
if not responses:
    return jsonify({'total_responses': 0, 'message': 'No responses yet'})
total_scores = [r['total_score'] for r in responses if r['total_score']]
if total_scores:
    stats = {'total_responses': len(responses),
             'latest_submission': max(...),
             'average_total_score': round(statistics.mean(total_scores), 2),
             'score_distribution': {'mean': ..., 'min': int(min(...)),
                                    'max': int(max(...))}}
    if len(total_scores) > 1:
        stats['score_distribution']['std'] = round(statistics.stdev(...), 2)
    return jsonify(stats)
else:
    return jsonify({'total_responses': len(responses),
                    'message': 'No valid scores found'})
```

Python float truthiness (`if r['total_score']`) is value `≠ 0`; the JSON
`round(..., 2)` presentation rounding is not modelled (the claims do not
inspect rounded digits). -/
def get_stats (responses : List ScoreRow) : Except String StatsOut :=
  if responses.isEmpty then
    Except.ok
      { total_responses := 0, latest_submission := none,
        average_total_score := none, dist_mean := none, dist_min := none,
        dist_max := none, dist_std_sq := none }
  else
    let total_scores :=
      (responses.filter (fun r => r.total_score != 0)).map
        (fun r => r.total_score)
    if total_scores.isEmpty then
      Except.ok
        { total_responses := responses.length, latest_submission := none,
          average_total_score := none, dist_mean := none, dist_min := none,
          dist_max := none, dist_std_sq := none }
    else do
      let latest ← list_max_str (responses.map (fun r => r.submission_timestamp))
      let avg ← stat_mean total_scores
      let mn ← list_min total_scores
      let mx ← list_max total_scores
      let std ←
        if 1 < total_scores.length then Except.map some (stat_stdev_sq total_scores)
        else Except.ok none
      Except.ok
        { total_responses := responses.length,
          latest_submission := some latest,
          average_total_score := some avg, dist_mean := some avg,
          dist_min := some (pyInt mn), dist_max := some (pyInt mx),
          dist_std_sq := std }

/-- The 3×2 matrix `[[5,5],[3,3],[1,1]]` of the perfectly correlated
example (spec §8, claim C7). -/
def M_corr : Fin 3 → Fin 2 → ℚ := ![![5, 5], ![3, 3], ![1, 1]]

/-- The 3×2 matrix `[[5,1],[3,3],[1,5]]` of the perfectly anti-correlated
example (spec §8, claim C8). -/
def M_anti : Fin 3 → Fin 2 → ℚ := ![![5, 1], ![3, 3], ![1, 5]]

/-- A 2×2 matrix `[[1,2],[3,5]]` with nonzero row-sum variance, used as
a concrete instance of the general alpha formula. -/
def M_wit : Fin 2 → Fin 2 → ℚ := ![![1, 2], ![3, 5]]

/-- The 2×2 matrix `[[5,1],[1,5]]`: both respondents have row sum 6, so
the row-sum variance is zero, while each item column has variance 8. -/
def M_degen : Fin 2 → Fin 2 → ℚ := ![![5, 1], ![1, 5]]

/-- A complete 3×20 Wisdom response matrix: columns Q1 and Q2 both hold
`[5, 3, 1]`, every other column is constant 3 (all values in 1–5). -/
def M_unrev : Fin 3 → Fin 20 → ℚ :=
  fun i j => if (j : ℕ) ≤ 1 then (5 - 2 * (i : ℕ) : ℚ) else 3

set_option maxHeartbeats 1000000

/-- C1: on every item-response matrix with at least 2 item columns, at
least 2 complete respondent rows, and nonzero sample variance of the row
sums, `cronbach_alpha` returns the finite value
`(k / (k−1)) · (1 − Σ item_variances / variance(row_sums))`, with all
variances sample variances (divisor `n − 1`). -/
theorem cronbach_alpha_formula {n k : ℕ} (M : Fin n → Fin k → ℚ)
    (hk : 2 ≤ k) (hn : 2 ≤ n) (hv : svar (rowSums M) ≠ 0) :
    cronbach_alpha n k M =
      EF.fin (((k : ℚ) / ((k : ℚ) - 1)) *
        (1 - (∑ j, svar (fun i => M i j)) / svar (rowSums M))) := by
  unfold cronbach_alpha
  rw [if_neg (by omega : ¬ k = 1)]
  simp only [if_neg (by omega : ¬ n < 2), EF.div, if_neg hv, EF.sub, EF.mul]

/-- Witness for C1: the matrix `[[1,2],[3,5]]` satisfies the hypotheses
(k = n = 2, row-sum variance 25/2 ≠ 0) and the formula evaluates to
`2 · (1 − (13/2)/(25/2)) = 24/25`. -/
theorem cronbach_alpha_formula_witness :
    svar (rowSums M_wit) ≠ 0 ∧ cronbach_alpha 2 2 M_wit = EF.fin (24 / 25) := by
  have hv : svar (rowSums M_wit) ≠ 0 := by
    norm_num [svar, mean, rowSums, M_wit, Fin.sum_univ_succ]
  refine ⟨hv, ?_⟩
  rw [cronbach_alpha_formula M_wit (by norm_num) (by norm_num) hv]
  norm_num [svar, mean, rowSums, M_wit, Fin.sum_univ_succ]

/-- C2 (amended): degenerate inputs never raise, but not all of them
yield NaN.  A single item column gives NaN (`ZeroDivisionError` caught);
fewer than 2 complete rows gives NaN; a zero-item input also gives NaN
(it is not a hard error); with ≥ 2 rows and zero row-sum variance the
result is NaN exactly when the summed item variance is also zero, and
`−∞` when the summed item variance is positive (NumPy `x/0 = ∞`). -/
theorem cronbach_alpha_degenerate {n k : ℕ} (M : Fin n → Fin k → ℚ) :
    (k = 1 → cronbach_alpha n k M = EF.nan) ∧
    (n < 2 → cronbach_alpha n k M = EF.nan) ∧
    (k = 0 → cronbach_alpha n k M = EF.nan) ∧
    (2 ≤ n → svar (rowSums M) = 0 → (∑ j, svar (fun i => M i j)) = 0 →
      cronbach_alpha n k M = EF.nan) ∧
    (2 ≤ n → 2 ≤ k → svar (rowSums M) = 0 → 0 < (∑ j, svar (fun i => M i j)) →
      cronbach_alpha n k M = EF.ninf) := by
  refine ⟨fun h1 => ?_, fun h2 => ?_, fun h0 => ?_, fun hn hv hs => ?_,
    fun hn hk hv hs => ?_⟩
  · simp [cronbach_alpha, h1]
  · by_cases h1 : k = 1 <;>
      simp [cronbach_alpha, h1, h2, EF.div, EF.sub, EF.mul]
  · subst h0
    by_cases h2 : n < 2
    · simp [cronbach_alpha, h2, EF.div, EF.sub, EF.mul]
    · have hsv : svar (rowSums M) = 0 := by
        have hrs : rowSums M = fun _ => 0 := by funext i; simp [rowSums]
        rw [hrs]; simp [svar, mean]
      simp [cronbach_alpha, h2, hsv, EF.div, EF.sub, EF.mul]
  · have h2 : ¬ n < 2 := by omega
    by_cases h1 : k = 1
    · simp [cronbach_alpha, h1]
    · simp [cronbach_alpha, h1, h2, hv, hs, EF.div, EF.sub, EF.mul]
  · have h2 : ¬ n < 2 := by omega
    have h1 : ¬ k = 1 := by omega
    have hk2 : (2 : ℚ) ≤ (k : ℚ) := by exact_mod_cast hk
    have hc : (0 : ℚ) < (k : ℚ) / ((k : ℚ) - 1) :=
      div_pos (by linarith) (by linarith)
    simp [cronbach_alpha, h1, h2, hv, hs, hs.ne', hc, hc.ne', EF.div, EF.sub, EF.mul]

/-- Witness for the amended C2: on `[[5,1],[1,5]]` (2 complete rows,
2 items, zero row-sum variance, summed item variance 16 > 0) the last
conjunct of `cronbach_alpha_degenerate` yields `−∞`. -/
theorem cronbach_alpha_degenerate_witness :
    cronbach_alpha 2 2 M_degen = EF.ninf :=
  (cronbach_alpha_degenerate M_degen).2.2.2.2 (by norm_num) (by norm_num)
    (by norm_num [svar, mean, rowSums, M_degen, Fin.sum_univ_succ])
    (by norm_num [svar, mean, rowSums, M_degen, Fin.sum_univ_succ])

/-- Counterexample to C2 as stated: `[[5,1],[1,5]]` is degenerate (zero
sample variance of the row sums, with 2 complete rows and 2 items), yet
`cronbach_alpha` returns `−∞`, not NaN: the summed item variance 16 is
divided by the zero row-sum variance, giving `+∞` under NumPy semantics,
and `2 · (1 − ∞) = −∞`. -/
theorem cronbach_alpha_degenerate_not_nan :
    svar (rowSums M_degen) = 0 ∧
    cronbach_alpha 2 2 M_degen = EF.ninf ∧
    cronbach_alpha 2 2 M_degen ≠ EF.nan := by
  have h : cronbach_alpha 2 2 M_degen = EF.ninf := by
    norm_num [cronbach_alpha, svar, mean, rowSums, M_degen, Fin.sum_univ_succ,
      EF.div, EF.sub, EF.mul]
  refine ⟨?_, h, by rw [h]; simp⟩
  norm_num [svar, mean, rowSums, M_degen, Fin.sum_univ_succ]

/-- C3 (code bug): the full-instrument reliability path passes the raw
Q-columns to `cronbach_alpha` without reversing Q2, so it disagrees with
the alpha of the Q2-reversed data that the specification prescribes.  On
the complete 3×20 dataset `M_unrev` (Q1 = Q2 = `[5,3,1]`, all other
columns constant 3) the code's `alpha_total` is `10/19`, while alpha on
the Q2-reversed data is `−∞` (reversing Q2 makes every row sum 60, so
the row-sum variance vanishes while the item variances stay positive). -/
theorem alpha_total_skips_reversal :
    alpha_total 3 M_unrev = EF.fin (10 / 19) ∧
    cronbach_alpha 3 20 (reverseQ2 M_unrev) = EF.ninf ∧
    alpha_total 3 M_unrev ≠ cronbach_alpha 3 20 (reverseQ2 M_unrev) := by
  have h1 : alpha_total 3 M_unrev = EF.fin (10 / 19) := by
    norm_num [alpha_total, cronbach_alpha, svar, mean, rowSums, M_unrev,
      Fin.sum_univ_succ, EF.div, EF.sub, EF.mul]
  have h2 : cronbach_alpha 3 20 (reverseQ2 M_unrev) = EF.ninf := by
    norm_num [cronbach_alpha, svar, mean, rowSums, reverseQ2, M_unrev,
      Fin.sum_univ_succ, EF.div, EF.sub, EF.mul]
  exact ⟨h1, h2, by rw [h1, h2]; simp⟩

/-- C4: for every respondent (the questionnaire guarantees complete
data), the engine's reported `total_wisdom_score` equals the sum over all
20 items of the reverse-adjusted values prescribed by the spec —
`(scale_max + scale_min) − raw = 6 − raw` for the single reversed item
Q2, the raw value for every other item — with exact integer equality. -/
theorem total_score_refines_spec (r : ℕ → ℤ) :
    (calculate_scores r).total_wisdom_score = spec_reverse_adjusted_total r := by
  simp [calculate_scores, spec_reverse_adjusted_total, wisdom_questions]

/-- C5: reverse scoring is an involution — with `s = scale_min + scale_max`
fixed, `reverse_score s (reverse_score s x) = x` for every raw value, and
in particular the code's Q2 adjustment `6 − (6 − x) = x` on the 5-point
Wisdom scale. -/
theorem reverse_involution :
    (∀ s x : ℤ, reverse_score s (reverse_score s x) = x) ∧
    (∀ x : ℤ, wisdom_adjust 2 (wisdom_adjust 2 x) = x) := by
  constructor
  · intro s x; unfold reverse_score; ring
  · intro x; simp [wisdom_adjust]

/-- Mean of a permuted vector equals the mean of the vector. -/
theorem mean_perm {n : ℕ} (v : Fin n → ℚ) (σ : Equiv.Perm (Fin n)) :
    mean (fun i => v (σ i)) = mean v := by
  unfold mean
  rw [Equiv.sum_comp σ v]

/-- Sample variance of a permuted vector equals that of the vector. -/
theorem svar_perm {n : ℕ} (v : Fin n → ℚ) (σ : Equiv.Perm (Fin n)) :
    svar (fun i => v (σ i)) = svar v := by
  unfold svar
  rw [mean_perm v σ, Equiv.sum_comp σ (fun x => (v x - mean v) ^ 2)]

/-- C6: `cronbach_alpha` is unchanged under any permutation of the
respondent rows and any permutation of the item columns. -/
theorem cronbach_alpha_perm {n k : ℕ} (M : Fin n → Fin k → ℚ)
    (σ : Equiv.Perm (Fin n)) (τ : Equiv.Perm (Fin k)) :
    cronbach_alpha n k (fun i j => M (σ i) (τ j)) = cronbach_alpha n k M := by
  have hrow : rowSums (fun i j => M (σ i) (τ j)) = fun i => rowSums M (σ i) := by
    funext i
    exact Equiv.sum_comp τ (M (σ i))
  have hrowvar : svar (rowSums (fun i j => M (σ i) (τ j))) = svar (rowSums M) := by
    rw [hrow, svar_perm (rowSums M) σ]
  have hitems :
      (∑ j, svar (fun i => M (σ i) (τ j))) = ∑ j, svar (fun i => M i j) := by
    calc (∑ j, svar (fun i => M (σ i) (τ j)))
        = ∑ j, svar (fun i => M i (τ j)) := by
          refine Finset.sum_congr rfl fun j _ => ?_
          exact svar_perm (fun i => M i (τ j)) σ
      _ = ∑ j, svar (fun i => M i j) :=
          Equiv.sum_comp τ (fun j => svar (fun i => M i j))
  unfold cronbach_alpha
  rw [hrowvar, hitems]

/-- C7: Cronbach's alpha on the perfectly correlated 3×2 matrix
`[[5,5],[3,3],[1,1]]` equals exactly 1. -/
theorem cronbach_alpha_perfectly_correlated :
    cronbach_alpha 3 2 M_corr = EF.fin 1 := by
  norm_num [cronbach_alpha, svar, mean, rowSums, M_corr, Fin.sum_univ_succ,
    EF.div, EF.sub, EF.mul]

/-- C8: Cronbach's alpha on the perfectly anti-correlated 3×2 matrix
`[[5,1],[3,3],[1,5]]` is `−∞`: a value strictly below 0 under the IEEE
comparison the code's output obeys, and not (a clamped) zero.  (Every
row sums to 6, so the row-sum variance is 0 and the summed item variance
8 is divided by it.) -/
theorem cronbach_alpha_anti_correlated :
    cronbach_alpha 3 2 M_anti = EF.ninf ∧
    EF.lt (cronbach_alpha 3 2 M_anti) (EF.fin 0) = true ∧
    cronbach_alpha 3 2 M_anti ≠ EF.fin 0 := by
  have h : cronbach_alpha 3 2 M_anti = EF.ninf := by
    norm_num [cronbach_alpha, svar, mean, rowSums, M_anti, Fin.sum_univ_succ,
      EF.div, EF.sub, EF.mul]
  exact ⟨h, by rw [h]; rfl, by rw [h]; simp⟩

/-- C9: the `/stats` aggregator on an empty collection of respondent
score rows returns a zero-count result (`total_responses = 0`, every
statistic absent) and does not raise. -/
theorem get_stats_empty :
    get_stats [] =
      Except.ok
        { total_responses := 0, latest_submission := none,
          average_total_score := none, dist_mean := none, dist_min := none,
          dist_max := none, dist_std_sq := none } := rfl

/-- C10: the four subscales form a partition of the 20 Wisdom items
(their concatenation is a permutation of Q1 … Q20), and for every
respondent the reported total equals the sum of the four subscale
scores (both the total and the Curiosity subscale reverse Q2). -/
theorem subscales_partition_and_sum :
    List.Perm
      (creativity_questions ++ curiosity_questions ++
        judgment_questions ++ social_questions) wisdom_questions ∧
    ∀ r : ℕ → ℤ,
      (calculate_scores r).total_wisdom_score =
        (calculate_scores r).creativity_score + (calculate_scores r).curiosity_score +
          (calculate_scores r).judgment_score + (calculate_scores r).social_wisdom_score := by
  constructor
  · decide
  · intro r
    simp [calculate_scores, wisdom_questions, creativity_questions,
      curiosity_questions, judgment_questions, social_questions]
    ring

end Survey
